import Mathlib

set_option maxRecDepth 40000

/-!
Verification of the DOS 3.3 disk-image codec in
`scripts/disk-tools/make_disk_image.py` and `scripts/disk-tools/verify_disk.py`.

The Python code is shallowly embedded: the 143,360-byte `bytearray` buffer
becomes a `ByteBuf` (a size together with a byte-valued function), Python
slice reads/writes become `sliceGet`/`sliceAssign` with Python's index
clamping semantics, and `raise ValueError` becomes `Except DiskError`.
-/

/-- Number of tracks on an Apple II 5.25 inch disk (`TRACKS_PER_DISK`). -/
def TRACKS_PER_DISK : Nat := 35

/-- Sectors per track (`SECTORS_PER_TRACK`). -/
def SECTORS_PER_TRACK : Nat := 16

/-- Bytes per sector (`BYTES_PER_SECTOR`). -/
def BYTES_PER_SECTOR : Nat := 256

/-- Total image size in bytes (`DISK_SIZE` = 35 * 16 * 256 = 143360). -/
def DISK_SIZE : Nat := TRACKS_PER_DISK * SECTORS_PER_TRACK * BYTES_PER_SECTOR

/-- Track holding the VTOC (`DOS33_VTOC_TRACK`). -/
def DOS33_VTOC_TRACK : Nat := 17

/-- Sector holding the VTOC (`DOS33_VTOC_SECTOR`). -/
def DOS33_VTOC_SECTOR : Nat := 0

/-- First catalog track (`DOS33_CATALOG_TRACK`). -/
def DOS33_CATALOG_TRACK : Nat := 17

/-- First catalog sector (`DOS33_CATALOG_SECTOR`). -/
def DOS33_CATALOG_SECTOR : Nat := 1

/-- A Python `bytearray`/`bytes` buffer: its length and the byte at each
index below the length (values at indices at or above `size` are irrelevant). -/
structure ByteBuf where
  size : Nat
  byte : Nat → Nat

/-- Python slice-bound normalisation for step-1 slices: a negative index
counts from the end (clamped below at 0), a non-negative index is clamped
above at the length. -/
def pySliceBound (n : Nat) (i : Int) : Nat :=
  if i < 0 then ((n : Int) + i).toNat else min i.toNat n

/-- Python slice read `buf[start:stop]` as a list of bytes. -/
def sliceGet (buf : ByteBuf) (start stop : Int) : List Nat :=
  let a := pySliceBound buf.size start
  let b := max a (pySliceBound buf.size stop)
  (List.range (b - a)).map (fun i => buf.byte (a + i))

/-- Python slice assignment `buf[start:stop] = payload` for a step-1 slice:
the addressed region is removed and the payload spliced in at its place
(when the region length equals the payload length this is an in-place
overwrite; otherwise the buffer length changes). -/
def sliceAssign (buf : ByteBuf) (start stop : Int) (payload : List Nat) : ByteBuf :=
  let a := pySliceBound buf.size start
  let b := max a (pySliceBound buf.size stop)
  { size := buf.size - (b - a) + payload.length
    byte := fun k =>
      if k < a then buf.byte k
      else if k < a + payload.length then payload.getD (k - a) 0
      else buf.byte (k + (b - a) - payload.length) }

/-- Structured errors for the `ValueError`s raised by the codec:
`OutOfRange` for a bad track/sector, `SectorOverflow` for a payload
larger than one sector. -/
inductive DiskError where
  | OutOfRange : DiskError
  | SectorOverflow : DiskError
deriving DecidableEq

/-- Embedding of `DiskImage.get_sector`: bounds check (upper bounds only,
exactly as `if track >= TRACKS_PER_DISK or sector >= SECTORS_PER_TRACK`),
then return the 256-byte slice at `(track * 16 + sector) * 256`. -/
def get_sector (buf : ByteBuf) (track sector : Int) : Except DiskError (List Nat) :=
  if (TRACKS_PER_DISK : Int) ≤ track ∨ (SECTORS_PER_TRACK : Int) ≤ sector then
    .error .OutOfRange
  else
    let offset := (track * (SECTORS_PER_TRACK : Int) + sector) * (BYTES_PER_SECTOR : Int)
    .ok (sliceGet buf offset (offset + (BYTES_PER_SECTOR : Int)))

/-- Embedding of `DiskImage.set_sector`: the same upper-bound check, then
the payload-size check `len(data) > BYTES_PER_SECTOR`, then the slice
assignment `self.data[offset:offset + len(data)] = data`. -/
def set_sector (buf : ByteBuf) (track sector : Int) (payload : List Nat) :
    Except DiskError ByteBuf :=
  if (TRACKS_PER_DISK : Int) ≤ track ∨ (SECTORS_PER_TRACK : Int) ≤ sector then
    .error .OutOfRange
  else if BYTES_PER_SECTOR < payload.length then
    .error .SectorOverflow
  else
    let offset := (track * (SECTORS_PER_TRACK : Int) + sector) * (BYTES_PER_SECTOR : Int)
    .ok (sliceAssign buf offset (offset + (payload.length : Int)) payload)

/-- The byte offset of a valid sector, as computed inside `get_sector` and
`set_sector`: `(track * SECTORS_PER_TRACK + sector) * BYTES_PER_SECTOR`. -/
def sectorOffset (track sector : Nat) : Nat :=
  (track * SECTORS_PER_TRACK + sector) * BYTES_PER_SECTOR

/-- A fresh image buffer, `bytearray(DISK_SIZE)`: 143,360 zero bytes. -/
def newDisk : ByteBuf := { size := DISK_SIZE, byte := fun _ => 0 }

/-- Embedding of `x &= ~(1 << bit)` on a byte value: clear the given bit
(for a natural `x`, `x AND NOT (1 << bit)` equals `x` minus its bits in
`1 << bit`). -/
def andNotBit (x bit : Nat) : Nat := x - (x &&& (1 <<< bit))

/-- The VTOC sector contents before the bitmap loop of `format_dos33`:
a zero-filled 256-byte array with the static header fields assigned. -/
def vtocBase : List Nat :=
  (((((((((((List.replicate BYTES_PER_SECTOR 0).set 0x00 0).set 0x01
    DOS33_CATALOG_TRACK).set 0x02 DOS33_CATALOG_SECTOR).set 0x03 3).set 0x06
    254).set 0x27 122).set 0x30 1).set 0x34 TRACKS_PER_DISK).set 0x35
    SECTORS_PER_TRACK).set 0x36 0).set 0x37 1

/-- The VTOC sector contents after the bitmap loop of `format_dos33`, which
for each of the 16 sectors of track 17 executes
`vtoc[0x38 + 17*4 + sector//8] &= ~(1 << (7 - sector%8))`. -/
def vtocBytes : List Nat :=
  (List.range 16).foldl
    (fun v sector =>
      let off := 0x38 + DOS33_VTOC_TRACK * 4 + sector / 8
      let bit := 7 - sector % 8
      v.set off (andNotBit (v.getD off 0) bit))
    vtocBase

/-- The first catalog sector written by `format_dos33`: zero-filled with the
next-catalog pointer set to track 17, sector 2. -/
def catalogBytes : List Nat :=
  ((List.replicate BYTES_PER_SECTOR 0).set 0x01 DOS33_CATALOG_TRACK).set 0x02
    (DOS33_CATALOG_SECTOR + 1)

/-- Embedding of `DiskImage.format_dos33`: write the VTOC at track 17
sector 0, then the first catalog sector at track 17 sector 1. -/
def format_dos33 (buf : ByteBuf) : Except DiskError ByteBuf := do
  let b1 ← set_sector buf (DOS33_VTOC_TRACK : Int) (DOS33_VTOC_SECTOR : Int) vtocBytes
  set_sector b1 (DOS33_CATALOG_TRACK : Int) (DOS33_CATALOG_SECTOR : Int) catalogBytes

/-- The image produced by `DiskImage(format='dos33')` followed by
`format_dos33` (the format step cannot fail on a fresh image). -/
def formattedDisk : ByteBuf :=
  match format_dos33 newDisk with
  | .ok d => d
  | .error _ => newDisk

/-- Embedding of `DiskImage.add_file_dos33`: the source truncates the
filename to 30 characters and prints a report line, but performs no buffer
mutation at all (the body is an explicit placeholder); so as a state
transformer on the image it is the identity and it cannot fail. -/
def add_file_dos33 (buf : ByteBuf) (_filename _data : List Nat)
    (_fileType _loadAddress : Nat) : ByteBuf :=
  buf

/-- The report assembled by `verify_disk_image`: the values it extracts and
prints, the pass/fail outcome of each reported check, and the overall
verdict (the function's return value). -/
structure VerifyReport where
  sizeOk : Bool
  bootNonZero : Nat
  dosVersion : Nat
  volumeNum : Nat
  maxPairs : Nat
  numTracks : Nat
  sectorsPerTrack : Nat
  geomOk : Bool
  nextCatTrack : Nat
  nextCatSector : Nat
  fileEntries : Nat
  verdict : Bool
deriving DecidableEq

/-- The VTOC header reads of `verify_disk_image`: the Python indexing
expressions `vtoc[0x03]`, `vtoc[0x06]`, `vtoc[0x27]`, `vtoc[0x34]`,
`vtoc[0x35]`, each a `List.get?` so that an `IndexError` on a short image
surfaces as `none`. -/
def vtocHeaderReads (vtoc : List Nat) : Option (Nat × Nat × Nat × Nat × Nat) := do
  let dosVersion ← vtoc.get? 0x03
  let volumeNum ← vtoc.get? 0x06
  let maxPairs ← vtoc.get? 0x27
  let numTracks ← vtoc.get? 0x34
  let sectorsPT ← vtoc.get? 0x35
  pure (dosVersion, volumeNum, maxPairs, numTracks, sectorsPT)

/-- The file-entry loop of `verify_disk_image`: for i in range(7) it reads
the type byte `catalog[0x0B + i*0x23]`. -/
def catalogTypeReads (catalog : List Nat) : Option (List Nat) := do
  let e0 ← catalog.get? (0x0B + 0 * 0x23)
  let e1 ← catalog.get? (0x0B + 1 * 0x23)
  let e2 ← catalog.get? (0x0B + 2 * 0x23)
  let e3 ← catalog.get? (0x0B + 3 * 0x23)
  let e4 ← catalog.get? (0x0B + 4 * 0x23)
  let e5 ← catalog.get? (0x0B + 5 * 0x23)
  let e6 ← catalog.get? (0x0B + 6 * 0x23)
  pure [e0, e1, e2, e3, e4, e5, e6]

/-- Embedding of `verify_disk_image` from `verify_disk.py`, taking the byte
content of the image file. The size check compares the file length with
`DISK_SIZE`; the geometry check compares VTOC bytes 0x34/0x35 with 35 and
16; the catalog loop counts entry slots whose type byte is neither 0x00 nor
0xFF; and the overall verdict, exactly as in the source, is
`size == DISK_SIZE and dos_version == 3`. -/
def verify_disk_image (img : ByteBuf) : Option VerifyReport := do
  let size := img.size
  let sizeOk := size == DISK_SIZE
  let boot := sliceGet img 0 (BYTES_PER_SECTOR : Int)
  let bootNonZero := boot.countP (fun b => b != 0)
  let vtocOff : Int := (17 * 16 + 0) * (BYTES_PER_SECTOR : Int)
  let vtoc := sliceGet img vtocOff (vtocOff + (BYTES_PER_SECTOR : Int))
  let (dosVersion, volumeNum, maxPairs, numTracks, sectorsPT) ← vtocHeaderReads vtoc
  let geomOk := numTracks == 35 && sectorsPT == 16
  let catOff : Int := (17 * 16 + 1) * (BYTES_PER_SECTOR : Int)
  let catalog := sliceGet img catOff (catOff + (BYTES_PER_SECTOR : Int))
  let nextCatTrack ← catalog.get? 0x01
  let nextCatSector ← catalog.get? 0x02
  let types ← catalogTypeReads catalog
  let fileEntries := types.countP (fun ft => ft != 0x00 && ft != 0xFF)
  let verdict := sizeOk && (dosVersion == 3)
  pure { sizeOk := sizeOk, bootNonZero := bootNonZero, dosVersion := dosVersion,
         volumeNum := volumeNum, maxPairs := maxPairs, numTracks := numTracks,
         sectorsPerTrack := sectorsPT, geomOk := geomOk,
         nextCatTrack := nextCatTrack, nextCatSector := nextCatSector,
         fileEntries := fileEntries, verdict := verdict }

/-- Modelled from the spec: DOS 3.3 stores a file name as 30 bytes,
space-padded, with the high bit set on every character (section 3 / section 6
of the design). `readFile` is absent from the repository source, so its name
encoding is taken from those words. -/
def padName (name : List Nat) : List Nat :=
  (name.map (fun c => c ||| 0x80)) ++ List.replicate (30 - name.length) 0xA0

/-- Modelled from the spec: walk the linked catalog-sector chain from a
starting address with an explicit hop bound (section 9), scanning each
sector's 7 entry slots for a live entry (type byte not the 0x00 unused
sentinel, TSL track not the 0xFF deleted sentinel) whose 30 name bytes match;
the chain is terminated by a next-track of 0. Returns the 35-byte entry
record when found. `readFile` and its catalog walk are absent from the
repository source. -/
def catFindEntry (img : ByteBuf) (pname : List Nat) :
    Nat → Nat × Nat → Option (List Nat)
  | 0, _ => none
  | fuel + 1, (t, s) =>
    if t = 0 then none
    else
      match get_sector img (t : Int) (s : Int) with
      | .error _ => none
      | .ok cat =>
        match (List.range 7).findSome? (fun i =>
          let off := 0x0B + i * 0x23
          let tslT := cat.getD off 0
          let ftype := cat.getD (off + 1) 0
          let nm := (List.range 30).map (fun j => cat.getD (off + 3 + j) 0)
          if ftype ≠ 0x00 ∧ tslT ≠ 0xFF ∧ nm = pname then
            some ((List.range 35).map (fun j => cat.getD (off + j) 0))
          else none) with
        | some entry => some entry
        | none => catFindEntry img pname fuel (cat.getD 0x01 0, cat.getD 0x02 0)

/-- Modelled from the spec: walk a file's track-sector-list chain (section 3:
chain pointer at the catalog-sector offsets, up to 122 data-sector pairs per
TSL sector per the VTOC's max-pairs field) collecting `remaining` data-sector
addresses; a zero pair inside the active range is invalid, and the walk is
hop-bounded. `readFile` and its TSL walk are absent from the repository
source. -/
def tslCollect (img : ByteBuf) : Nat → Nat × Nat → Nat → Option (List (Nat × Nat))
  | 0, _, _ => none
  | fuel + 1, (t, s), remaining =>
    if remaining = 0 then some []
    else
      match get_sector img (t : Int) (s : Int) with
      | .error _ => none
      | .ok tsl =>
        let wanted := min remaining 122
        let used := (List.range wanted).map (fun j =>
          (tsl.getD (0x0C + 2 * j) 0, tsl.getD (0x0C + 2 * j + 1) 0))
        if used.any (fun p => p.1 = 0 ∧ p.2 = 0) then none
        else if remaining ≤ 122 then some used
        else
          match tslCollect img fuel (tsl.getD 0x01 0, tsl.getD 0x02 0)
              (remaining - 122) with
          | some rest => some (used ++ rest)
          | none => none

/-- Modelled from the spec: `readFile(image, name)` (section 4.5) finds the
catalog entry for `name` by walking the catalog chain from the VTOC's
first-catalog pointer, reads the entry's little-endian sector count, walks
its TSL chain, and concatenates the data sectors in order; it yields nothing
when no live entry carries the name. `readFile` is absent from the
repository source. -/
def readFile (img : ByteBuf) (name : List Nat) : Option (List Nat) :=
  match get_sector img (DOS33_VTOC_TRACK : Int) (DOS33_VTOC_SECTOR : Int) with
  | .error _ => none
  | .ok vtoc =>
    match catFindEntry img (padName name) TRACKS_PER_DISK
        (vtoc.getD 0x01 0, vtoc.getD 0x02 0) with
    | none => none
    | some entry =>
      let sc := entry.getD 33 0 + 256 * entry.getD 34 0
      match tslCollect img TRACKS_PER_DISK (entry.getD 0 0, entry.getD 1 0) sc with
      | none => none
      | some pairs =>
        some (pairs.foldr (fun p acc =>
          (match get_sector img (p.1 : Int) (p.2 : Int) with
           | .ok d => d
           | .error _ => []) ++ acc) [])

/-- A 143,360-byte image that is all zero except for a DOS-version byte of 3
at VTOC offset 0x03: its size and version checks pass while its geometry
check fails. -/
def versionOnlyImage : ByteBuf :=
  { size := DISK_SIZE, byte := fun i => if i = 69632 + 0x03 then 3 else 0 }

/-! ## Theorems -/

/-- Claim C1, counterexample: after `format_dos33`, the bitmap bit for
track 0 sector 0 (a track other than the VTOC/catalog track 17) is clear,
i.e. the sector is marked used, not free as the claim states (the bitmap
byte at VTOC offset 0x38 is 0 because `format_dos33` never sets any
"free" bits). -/
theorem format_track0_not_free :
    (0 : Nat) ≠ DOS33_VTOC_TRACK ∧
    formattedDisk.byte (69632 + (0x38 + 0 * 4 + 0 / 8)) &&& (1 <<< (7 - 0 % 8)) = 0 := by
  constructor
  · decide
  · decide

/-- Claim C1, amended: after `format_dos33`, every sector of every track —
track 17 included — is marked used (its bitmap bit at VTOC offset
0x38 + track*4 + sector/8, bit 7 - sector%8, is clear); no sector is marked
free, because the formatter only clears bits of an already-zero bitmap and
never sets any. -/
theorem format_all_sectors_marked_used (t s : Nat) (ht : t < TRACKS_PER_DISK)
    (hs : s < SECTORS_PER_TRACK) :
    formattedDisk.byte (69632 + (0x38 + t * 4 + s / 8)) &&& (1 <<< (7 - s % 8)) = 0 := by
  have hall : ∀ j, j < 140 → formattedDisk.byte (69688 + j) = 0 := by decide
  have ht' : t < 35 := ht
  have hs' : s < 16 := hs
  have hidx : t * 4 + s / 8 < 140 := by omega
  have harith : 69632 + (0x38 + t * 4 + s / 8) = 69688 + (t * 4 + s / 8) := by omega
  rw [harith, hall _ hidx]
  simp

/-- Witness for `format_all_sectors_marked_used` at track 0, sector 0. -/
theorem format_all_sectors_marked_used_witness :
    formattedDisk.byte (69632 + (0x38 + 0 * 4 + 0 / 8)) &&& (1 <<< (7 - 0 % 8)) = 0 :=
  format_all_sectors_marked_used 0 0 (by decide) (by decide)

/-- Claim C2, counterexample: `add_file_dos33` applied to a zero-length
payload returns with the image unchanged instead of failing with
`EmptyFile`, and applied to a 200,000-byte payload (more than any free
space) it likewise returns with the image unchanged instead of failing with
`DiskFull` — the operation is a total no-op with no error channel. -/
theorem add_file_empty_no_failure :
    add_file_dos33 formattedDisk [88] [] 6 8192 = formattedDisk ∧
    add_file_dos33 formattedDisk [89] (List.replicate 200000 1) 6 8192 = formattedDisk :=
  ⟨rfl, rfl⟩

/-- Claim C2, amended: `add_file_dos33` performs no validation and no
mutation whatsoever: every call (any filename, payload, type, load address)
returns normally and leaves the 143,360-byte image byte-for-byte identical
to its state before the call. -/
theorem add_file_no_validation_no_mutation (fn data : List Nat) (ft la : Nat) :
    (add_file_dos33 formattedDisk fn data ft la).size = formattedDisk.size ∧
    ∀ i, (add_file_dos33 formattedDisk fn data ft la).byte i = formattedDisk.byte i :=
  ⟨rfl, fun _ => rfl⟩

/-- Claim C3, counterexample: adding the one-byte file [1] under name "X"
(byte 88) and reading it back yields no byte sequence at all — `readFile`
returns `none` because `add_file_dos33` wrote neither data sectors nor a
catalog entry — so no read-back sequence with the claimed rounded length
exists. -/
theorem roundtrip_fails_one_byte :
    ¬ ∃ r : List Nat,
      readFile (add_file_dos33 formattedDisk [88] [1] 6 8192) [88] = some r ∧
      (r.length + 255) / 256 = (1 + 255) / 256 := by
  rintro ⟨r, hr, -⟩
  have h : readFile (add_file_dos33 formattedDisk [88] [1] 6 8192) [88] = none := by
    decide
  rw [h] at hr
  exact Option.noConfusion hr

/-- Claim C3, amended: `add_file_dos33` writes nothing to the image, so for
every payload the subsequent `readFile` under name "X" finds no live catalog
entry and returns no bytes. -/
theorem add_file_then_read_none (data : List Nat) (ft la : Nat) :
    readFile (add_file_dos33 formattedDisk [88] data ft la) [88] = none := by
  show readFile formattedDisk [88] = none
  decide

/-- Claim C6: after formatting, the VTOC sector at track 17 sector 0 holds
the declared header values: byte 0x01 = 17 (first catalog track), byte
0x02 = 1 (first catalog sector), byte 0x03 = 3 (DOS version), byte
0x34 = 35 (track count), byte 0x35 = 16 (sectors per track), and bytes
0x36/0x37 = 0/1 (256 bytes per sector, little-endian). -/
theorem format_vtoc_header_fields :
    formattedDisk.byte (69632 + 0x01) = DOS33_CATALOG_TRACK ∧
    formattedDisk.byte (69632 + 0x02) = DOS33_CATALOG_SECTOR ∧
    formattedDisk.byte (69632 + 0x03) = 3 ∧
    formattedDisk.byte (69632 + 0x34) = TRACKS_PER_DISK ∧
    formattedDisk.byte (69632 + 0x35) = SECTORS_PER_TRACK ∧
    formattedDisk.byte (69632 + 0x36) = 0 ∧
    formattedDisk.byte (69632 + 0x37) = 1 := by
  refine ⟨?_, ?_, ?_, ?_, ?_, ?_, ?_⟩ <;> decide

/-- Claim C7, counterexample: on `versionOnlyImage` (correct size, DOS
version 3, but declared track count 0 and sectors-per-track 0) the verifier
reports the geometry check as failed yet still returns an overall success
verdict — the verdict tests only the size and DOS-version checks. -/
theorem verify_verdict_ignores_geometry :
    (verify_disk_image versionOnlyImage).map (fun r => (r.geomOk, r.verdict)) =
      some (false, true) := by
  decide

/-- Claim C8: running the verifier on the image produced by `format_dos33`
alone reports zero file entries in the first catalog sector, a valid DOS 3.3
VTOC (version 3, 35 tracks, 16 sectors per track, geometry check passing),
and an overall success verdict. -/
theorem verify_formatted_image_ok :
    (verify_disk_image formattedDisk).map
      (fun r => (r.fileEntries, r.numTracks, r.sectorsPerTrack, r.dosVersion,
                 r.geomOk, r.verdict)) = some (0, 35, 16, 3, true, true) := by
  decide

/-- Claim C9: for every image, filename, payload, file type and load
address, `add_file_dos33` leaves every byte of the image unchanged — it
writes no data sectors, no track-sector list, no catalog entry, and clears
no bitmap bits. -/
theorem add_file_identity (img : ByteBuf) (fn data : List Nat) (ft la : Nat) :
    add_file_dos33 img fn data ft la = img :=
  rfl

/-- Helper: reading index `i` of a mapped range list. -/
theorem range_map_get? (f : Nat → Nat) (n i : Nat) (h : i < n) :
    ((List.range n).map f).get? i = some (f i) := by
  rw [List.get?_map, List.get?_range h]
  rfl

/-- Helper: a slice assignment whose addressed region has exactly the
payload's length keeps the buffer size, overwrites the region with the
payload, and leaves every byte outside the region unchanged. -/
theorem sliceAssign_inbounds (buf : ByteBuf) (start stop : Int) (payload : List Nat)
    (a : Nat)
    (ha : pySliceBound buf.size start = a)
    (hb : pySliceBound buf.size stop = a + payload.length)
    (hbs : a + payload.length ≤ buf.size) :
    (sliceAssign buf start stop payload).size = buf.size ∧
    (∀ j, j < payload.length →
       (sliceAssign buf start stop payload).byte (a + j) = payload.getD j 0) ∧
    (∀ i, i < a ∨ a + payload.length ≤ i →
       (sliceAssign buf start stop payload).byte i = buf.byte i) := by
  simp only [sliceAssign, ha, hb]
  have hmax : max a (a + payload.length) = a + payload.length := by omega
  rw [hmax]
  refine ⟨by omega, ?_, ?_⟩
  · intro j hj
    rw [if_neg (by omega), if_pos (by omega)]
    have hidx : a + j - a = j := by omega
    rw [hidx]
  · intro i hi
    rcases hi with hi | hi
    · rw [if_pos hi]
    · rw [if_neg (by omega), if_neg (by omega)]
      have hidx : i + (a + payload.length - a) - payload.length = i := by omega
      rw [hidx]

/-- Claim C4: the sector-offset map `(track, sector) ↦ (track*16 + sector)*256`
is injective on the valid domain (35 tracks, 16 sectors), and the 560
resulting 256-byte regions exactly partition the byte range `[0, 143360)`:
every byte offset below the disk size lies in the region of exactly one
valid sector address. -/
theorem sector_offset_injective_partition :
    (∀ t1 s1 t2 s2 : Nat, t1 < TRACKS_PER_DISK → s1 < SECTORS_PER_TRACK →
       t2 < TRACKS_PER_DISK → s2 < SECTORS_PER_TRACK →
       sectorOffset t1 s1 = sectorOffset t2 s2 → t1 = t2 ∧ s1 = s2) ∧
    (∀ b : Nat, b < DISK_SIZE →
       ∃ t s : Nat, t < TRACKS_PER_DISK ∧ s < SECTORS_PER_TRACK ∧
         sectorOffset t s ≤ b ∧ b < sectorOffset t s + BYTES_PER_SECTOR ∧
         ∀ t2 s2 : Nat, t2 < TRACKS_PER_DISK → s2 < SECTORS_PER_TRACK →
           sectorOffset t2 s2 ≤ b → b < sectorOffset t2 s2 + BYTES_PER_SECTOR →
           t2 = t ∧ s2 = s) := by
  constructor
  · intro t1 s1 t2 s2 h1 h2 h3 h4 heq
    simp only [sectorOffset, TRACKS_PER_DISK, SECTORS_PER_TRACK, BYTES_PER_SECTOR] at *
    omega
  · intro b hb
    simp only [DISK_SIZE, TRACKS_PER_DISK, SECTORS_PER_TRACK, BYTES_PER_SECTOR] at hb
    refine ⟨b / 4096, b % 4096 / 256, ?_, ?_, ?_, ?_, ?_⟩
    · simp only [TRACKS_PER_DISK]; omega
    · simp only [SECTORS_PER_TRACK]; omega
    · simp only [sectorOffset, SECTORS_PER_TRACK, BYTES_PER_SECTOR]; omega
    · simp only [sectorOffset, SECTORS_PER_TRACK, BYTES_PER_SECTOR]; omega
    · intro t2 s2 h1 h2 h3 h4
      simp only [sectorOffset, TRACKS_PER_DISK, SECTORS_PER_TRACK,
        BYTES_PER_SECTOR] at h1 h2 h3 h4
      constructor
      · omega
      · omega

/-- Witness for `sector_offset_injective_partition`: injectivity applied at
(1,2) = (1,2), and the covering statement applied at byte offset 5000. -/
theorem sector_offset_injective_partition_witness :
    ((1 : Nat) = 1 ∧ (2 : Nat) = 2) ∧
    (∃ t s : Nat, t < TRACKS_PER_DISK ∧ s < SECTORS_PER_TRACK ∧
       sectorOffset t s ≤ 5000 ∧ 5000 < sectorOffset t s + BYTES_PER_SECTOR ∧
       ∀ t2 s2 : Nat, t2 < TRACKS_PER_DISK → s2 < SECTORS_PER_TRACK →
         sectorOffset t2 s2 ≤ 5000 → 5000 < sectorOffset t2 s2 + BYTES_PER_SECTOR →
         t2 = t ∧ s2 = s) :=
  ⟨sector_offset_injective_partition.1 1 2 1 2 (by decide) (by decide) (by decide)
     (by decide) rfl,
   sector_offset_injective_partition.2 5000 (by decide)⟩

/-- Claim C5: `get_sector` and `set_sector` fail with `OutOfRange` whenever
track ≥ 35 or sector ≥ 16; `set_sector` fails with `SectorOverflow` when the
payload exceeds 256 bytes; and a successful in-range write of payload `p` at
(track, sector) changes exactly the bytes at offsets
`[(track*16+sector)*256, (track*16+sector)*256 + len(p))`, leaving every
other byte of the 143,360-byte image unchanged. -/
theorem sector_ops_bounds_overflow_frame :
    (∀ (img : ByteBuf) (t s : Int) (p : List Nat),
       (TRACKS_PER_DISK : Int) ≤ t ∨ (SECTORS_PER_TRACK : Int) ≤ s →
       get_sector img t s = .error .OutOfRange ∧
       set_sector img t s p = .error .OutOfRange) ∧
    (∀ (img : ByteBuf) (t s : Int) (p : List Nat),
       t < (TRACKS_PER_DISK : Int) → s < (SECTORS_PER_TRACK : Int) →
       BYTES_PER_SECTOR < p.length →
       set_sector img t s p = .error .SectorOverflow) ∧
    (∀ (img : ByteBuf) (t s : Int) (p : List Nat),
       0 ≤ t → t < (TRACKS_PER_DISK : Int) → 0 ≤ s → s < (SECTORS_PER_TRACK : Int) →
       p.length ≤ BYTES_PER_SECTOR → img.size = DISK_SIZE →
       ∃ img', set_sector img t s p = .ok img' ∧ img'.size = DISK_SIZE ∧
         (∀ j, j < p.length →
            img'.byte (((t * 16 + s) * 256).toNat + j) = p.getD j 0) ∧
         (∀ i : Nat, i < ((t * 16 + s) * 256).toNat ∨
            ((t * 16 + s) * 256).toNat + p.length ≤ i →
            img'.byte i = img.byte i)) := by
  refine ⟨?_, ?_, ?_⟩
  · intro img t s p h
    constructor
    · simp only [get_sector]
      rw [if_pos h]
    · simp only [set_sector]
      rw [if_pos h]
  · intro img t s p ht hs hp
    simp only [set_sector]
    rw [if_neg (by push_neg; exact ⟨ht, hs⟩), if_pos hp]
  · intro img t s p ht0 ht hs0 hs hp hsz
    simp only [TRACKS_PER_DISK, SECTORS_PER_TRACK, BYTES_PER_SECTOR,
      Nat.cast_ofNat] at ht hs hp
    have hsz' : img.size = 143360 := hsz
    have hoff0 : (0 : Int) ≤ (t * 16 + s) * 256 := by omega
    have hoffhi : (t * 16 + s) * 256 ≤ 143104 := by omega
    have ha : pySliceBound img.size
        ((t * (SECTORS_PER_TRACK : Int) + s) * (BYTES_PER_SECTOR : Int)) =
        ((t * 16 + s) * 256).toNat := by
      simp only [pySliceBound, SECTORS_PER_TRACK, BYTES_PER_SECTOR, Nat.cast_ofNat]
      rw [if_neg (by omega), hsz']
      omega
    have hb : pySliceBound img.size
        ((t * (SECTORS_PER_TRACK : Int) + s) * (BYTES_PER_SECTOR : Int) +
          (p.length : Int)) =
        ((t * 16 + s) * 256).toNat + p.length := by
      simp only [pySliceBound, SECTORS_PER_TRACK, BYTES_PER_SECTOR, Nat.cast_ofNat]
      rw [if_neg (by omega), hsz']
      omega
    have hbs : ((t * 16 + s) * 256).toNat + p.length ≤ img.size := by
      rw [hsz']; omega
    obtain ⟨h1, h2, h3⟩ := sliceAssign_inbounds img
      ((t * (SECTORS_PER_TRACK : Int) + s) * (BYTES_PER_SECTOR : Int))
      ((t * (SECTORS_PER_TRACK : Int) + s) * (BYTES_PER_SECTOR : Int) +
        (p.length : Int)) p (((t * 16 + s) * 256).toNat) ha hb hbs
    refine ⟨_, ?_, ?_, h2, h3⟩
    · simp only [set_sector]
      rw [if_neg, if_neg]
      · simp only [BYTES_PER_SECTOR]
        omega
      · push_neg
        constructor
        · simp only [TRACKS_PER_DISK, Nat.cast_ofNat]; omega
        · simp only [SECTORS_PER_TRACK, Nat.cast_ofNat]; omega
    · rw [h1, hsz]

/-- Witness for `sector_ops_bounds_overflow_frame`: out-of-range failures at
track 35, an overflow failure for a 257-byte payload, and a successful
1-byte write at track 0 sector 0 of a fresh image. -/
theorem sector_ops_bounds_overflow_frame_witness :
    (get_sector newDisk 35 0 = .error .OutOfRange ∧
     set_sector newDisk 35 0 [] = .error .OutOfRange) ∧
    set_sector newDisk 0 0 (List.replicate 257 0) = .error .SectorOverflow ∧
    (∃ img', set_sector newDisk 0 0 [9] = .ok img' ∧ img'.size = DISK_SIZE ∧
       (∀ j, j < ([9] : List Nat).length →
          img'.byte ((((0 : Int) * 16 + 0) * 256).toNat + j) = [9].getD j 0) ∧
       (∀ i : Nat, i < (((0 : Int) * 16 + 0) * 256).toNat ∨
          (((0 : Int) * 16 + 0) * 256).toNat + ([9] : List Nat).length ≤ i →
          img'.byte i = newDisk.byte i)) :=
  ⟨sector_ops_bounds_overflow_frame.1 newDisk 35 0 [] (by decide),
   sector_ops_bounds_overflow_frame.2.1 newDisk 0 0 (List.replicate 257 0)
     (by decide) (by decide) (by decide),
   sector_ops_bounds_overflow_frame.2.2 newDisk 0 0 [9]
     (by decide) (by decide) (by decide) (by decide) (by decide) rfl⟩

/-- Claim C10: `get_sector` and `set_sector` check only the upper bounds.
At track = -1, sector = 0 neither raises: the computed offset is -4096, and
Python's negative slice indexing makes the read return — and a 256-byte
write target — the bytes at offsets [139264, 139520), near the end of the
143,360-byte buffer, instead of rejecting the address. -/
theorem negative_track_wraps_to_end (img : ByteBuf) (hsz : img.size = DISK_SIZE) :
    get_sector img (-1) 0 =
      .ok ((List.range 256).map (fun i => img.byte (139264 + i))) ∧
    ∀ p : List Nat, p.length = 256 →
      ∃ img', set_sector img (-1) 0 p = .ok img' ∧ img'.size = DISK_SIZE ∧
        (∀ j, j < 256 → img'.byte (139264 + j) = p.getD j 0) ∧
        (∀ i : Nat, i < 139264 ∨ 139520 ≤ i → img'.byte i = img.byte i) := by
  have hsz' : img.size = 143360 := hsz
  constructor
  · simp only [get_sector]
    rw [if_neg (by decide)]
    simp only [sliceGet, hsz']
    rfl
  · intro p hp
    have ha : pySliceBound img.size
        ((-1 * (SECTORS_PER_TRACK : Int) + 0) * (BYTES_PER_SECTOR : Int)) =
        139264 := by
      rw [hsz']
      rfl
    have hb : pySliceBound img.size
        ((-1 * (SECTORS_PER_TRACK : Int) + 0) * (BYTES_PER_SECTOR : Int) +
          (p.length : Int)) = 139264 + p.length := by
      rw [hsz', hp]
      rfl
    have hbs : 139264 + p.length ≤ img.size := by
      rw [hsz', hp]
      omega
    obtain ⟨h1, h2, h3⟩ := sliceAssign_inbounds img
      ((-1 * (SECTORS_PER_TRACK : Int) + 0) * (BYTES_PER_SECTOR : Int))
      ((-1 * (SECTORS_PER_TRACK : Int) + 0) * (BYTES_PER_SECTOR : Int) +
        (p.length : Int)) p 139264 ha hb hbs
    refine ⟨sliceAssign img
      ((-1 * (SECTORS_PER_TRACK : Int) + 0) * (BYTES_PER_SECTOR : Int))
      ((-1 * (SECTORS_PER_TRACK : Int) + 0) * (BYTES_PER_SECTOR : Int) +
        (p.length : Int)) p, ?_, ?_, ?_, ?_⟩
    · simp only [set_sector]
      rw [if_neg (by decide), if_neg (by rw [hp]; decide)]
    · rw [h1, hsz]
    · intro j hj
      exact h2 j (by omega)
    · intro i hi
      exact h3 i (by omega)

/-- Witness for `negative_track_wraps_to_end` at a fresh zero image and the
constant payload of 256 sevens. -/
theorem negative_track_wraps_to_end_witness :
    get_sector newDisk (-1) 0 =
      .ok ((List.range 256).map (fun i => newDisk.byte (139264 + i))) ∧
    ∀ p : List Nat, p.length = 256 →
      ∃ img', set_sector newDisk (-1) 0 p = .ok img' ∧ img'.size = DISK_SIZE ∧
        (∀ j, j < 256 → img'.byte (139264 + j) = p.getD j 0) ∧
        (∀ i : Nat, i < 139264 ∨ 139520 ≤ i → img'.byte i = newDisk.byte i) :=
  negative_track_wraps_to_end newDisk rfl

/-- Helper: on a full-size image the boot-sector slice taken by the verifier
is the first 256 bytes. -/
theorem sliceGet_boot_region (img : ByteBuf) (hsz : img.size = 143360) :
    sliceGet img 0 (BYTES_PER_SECTOR : Int) =
      (List.range 256).map (fun i => img.byte (0 + i)) := by
  simp only [sliceGet, hsz]
  rfl

/-- Helper: on a full-size image the VTOC slice taken by the verifier is the
256 bytes starting at offset 69632. -/
theorem sliceGet_vtoc_region (img : ByteBuf) (hsz : img.size = 143360) :
    sliceGet img ((17 * 16 + 0) * (BYTES_PER_SECTOR : Int))
        ((17 * 16 + 0) * (BYTES_PER_SECTOR : Int) + (BYTES_PER_SECTOR : Int)) =
      (List.range 256).map (fun i => img.byte (69632 + i)) := by
  simp only [sliceGet, hsz]
  rfl

/-- Helper: on a full-size image the catalog slice taken by the verifier is
the 256 bytes starting at offset 69888. -/
theorem sliceGet_catalog_region (img : ByteBuf) (hsz : img.size = 143360) :
    sliceGet img ((17 * 16 + 1) * (BYTES_PER_SECTOR : Int))
        ((17 * 16 + 1) * (BYTES_PER_SECTOR : Int) + (BYTES_PER_SECTOR : Int)) =
      (List.range 256).map (fun i => img.byte (69888 + i)) := by
  simp only [sliceGet, hsz]
  rfl

/-- Helper: the verifier's five VTOC header reads on a 256-byte region. -/
theorem vtocHeaderReads_region (f : Nat → Nat) :
    vtocHeaderReads ((List.range 256).map f) =
      some (f 0x03, f 0x06, f 0x27, f 0x34, f 0x35) := by
  unfold vtocHeaderReads
  rw [range_map_get? f 256 0x03 (by norm_num), range_map_get? f 256 0x06 (by norm_num),
    range_map_get? f 256 0x27 (by norm_num), range_map_get? f 256 0x34 (by norm_num),
    range_map_get? f 256 0x35 (by norm_num)]
  rfl

/-- Helper: the verifier's seven catalog type-byte reads on a 256-byte
region. -/
theorem catalogTypeReads_region (f : Nat → Nat) :
    catalogTypeReads ((List.range 256).map f) =
      some [f 11, f 46, f 81, f 116, f 151, f 186, f 221] := by
  unfold catalogTypeReads
  rw [range_map_get? f 256 (0x0B + 0 * 0x23) (by norm_num),
    range_map_get? f 256 (0x0B + 1 * 0x23) (by norm_num),
    range_map_get? f 256 (0x0B + 2 * 0x23) (by norm_num),
    range_map_get? f 256 (0x0B + 3 * 0x23) (by norm_num),
    range_map_get? f 256 (0x0B + 4 * 0x23) (by norm_num),
    range_map_get? f 256 (0x0B + 5 * 0x23) (by norm_num),
    range_map_get? f 256 (0x0B + 6 * 0x23) (by norm_num)]
  rfl

/-- Helper: on any 143,360-byte image the verifier returns a report whose
fields are the corresponding bytes of the image; in particular every check
is evaluated, and the verdict is computed from the size and DOS-version
checks only. -/
theorem verify_disk_image_eq (img : ByteBuf) (hsz : img.size = 143360) :
    verify_disk_image img = some
      { sizeOk := true
        bootNonZero := ((List.range 256).map
          (fun i => img.byte (0 + i))).countP (fun b => b != 0)
        dosVersion := img.byte (69632 + 0x03)
        volumeNum := img.byte (69632 + 0x06)
        maxPairs := img.byte (69632 + 0x27)
        numTracks := img.byte (69632 + 0x34)
        sectorsPerTrack := img.byte (69632 + 0x35)
        geomOk := img.byte (69632 + 0x34) == 35 && img.byte (69632 + 0x35) == 16
        nextCatTrack := img.byte (69888 + 0x01)
        nextCatSector := img.byte (69888 + 0x02)
        fileEntries := [img.byte (69888 + 11), img.byte (69888 + 46),
          img.byte (69888 + 81), img.byte (69888 + 116), img.byte (69888 + 151),
          img.byte (69888 + 186), img.byte (69888 + 221)].countP
          (fun ft => ft != 0x00 && ft != 0xFF)
        verdict := img.byte (69632 + 0x03) == 3 } := by
  simp only [verify_disk_image, hsz]
  rw [sliceGet_boot_region img hsz,
    sliceGet_vtoc_region img hsz, sliceGet_catalog_region img hsz,
    vtocHeaderReads_region (fun i => img.byte (69632 + i)),
    catalogTypeReads_region (fun i => img.byte (69888 + i)),
    range_map_get? (fun i => img.byte (69888 + i)) 256 0x01 (by norm_num),
    range_map_get? (fun i => img.byte (69888 + i)) 256 0x02 (by norm_num)]
  rfl

/-- Claim C7, amended: for every 143,360-byte input image the verifier
evaluates and reports each of the three checks independently (size,
geometry, DOS version — none short-circuits the others), but its overall
verdict is success iff the size check and the DOS-version check pass; the
geometry check is reported yet excluded from the verdict. -/
theorem verify_report_and_verdict (img : ByteBuf) (hsz : img.size = DISK_SIZE) :
    ∃ r, verify_disk_image img = some r ∧
      r.sizeOk = true ∧
      r.geomOk = (img.byte (69632 + 0x34) == 35 && img.byte (69632 + 0x35) == 16) ∧
      r.dosVersion = img.byte (69632 + 0x03) ∧
      r.verdict = (img.byte (69632 + 0x03) == 3) :=
  ⟨_, verify_disk_image_eq img hsz, rfl, rfl, rfl, rfl⟩

/-- Witness for `verify_report_and_verdict` at `versionOnlyImage`. -/
theorem verify_report_and_verdict_witness :
    ∃ r, verify_disk_image versionOnlyImage = some r ∧
      r.sizeOk = true ∧
      r.geomOk = (versionOnlyImage.byte (69632 + 0x34) == 35 &&
        versionOnlyImage.byte (69632 + 0x35) == 16) ∧
      r.dosVersion = versionOnlyImage.byte (69632 + 0x03) ∧
      r.verdict = (versionOnlyImage.byte (69632 + 0x03) == 3) :=
  verify_report_and_verdict versionOnlyImage rfl
